import Mathlib

/-!
Verification of the persisted-store, chat, theme and navigation logic of the
Flet demo application in `main.py` (a mobile-styled personal site with tabbed
navigation, a locally persisted JSON settings/chat store, and a manually
toggled light/dark theme).

The Python source is shallowly embedded: JSON documents become an inductive
`Json` type; the persisted file becomes a `DiskFile` (absent, present but
unparseable, or present with a parsed document); Python's fallible dict/list
operations (`d[k]`, `d[k] = v`, `l.append`, `l.clear`) become `Except`-valued
functions raising the corresponding Python exception kinds; each event handler
of `main.py` becomes a state-transition function on an explicit `AppState`.
-/

/-- A parsed JSON value, as produced by Python's `json.load`. -/
inductive Json where
  | null : Json
  | bool (b : Bool) : Json
  | num (n : Int) : Json
  | str (s : String) : Json
  | arr (xs : List Json) : Json
  | obj (fields : List (String × Json)) : Json

/-- The kinds of Python exceptions the embedded dict/list operations raise. -/
inductive PyError where
  | keyError : PyError
  | typeError : PyError
  | attributeError : PyError
deriving Repr, DecidableEq

/-- The state of the persisted file `storage/data/app_data.json`: absent,
present but not parseable as JSON (`json.load` raises `JSONDecodeError`),
or present and parsing to a JSON document. -/
inductive DiskFile where
  | missing : DiskFile
  | corrupt : DiskFile
  | file (j : Json) : DiskFile

/-- First-match association-list lookup, the embedding of reading a key of a
Python dict produced by `json.load`. -/
def lookupField : List (String × Json) → String → Option Json
  | [], _ => none
  | (k', v) :: rest, k => if k' = k then some v else lookupField rest k

/-- Replace the value at key `k` (first occurrence), or add the binding at the
end when absent: the embedding of Python dict item assignment `d[k] = v`. -/
def setKeyAssoc : List (String × Json) → String → Json → List (String × Json)
  | [], k, v => [(k, v)]
  | (k', v') :: rest, k, v =>
      if k' = k then (k, v) :: rest else (k', v') :: setKeyAssoc rest k v

/-- Python subscript `j[k]` with a string key: `KeyError` when the dict lacks
the key, `TypeError` when `j` is not a dict. -/
def Json.index : Json → String → Except PyError Json
  | .obj fields, k =>
      match lookupField fields k with
      | some v => .ok v
      | none => .error .keyError
  | _, _ => .error .typeError

/-- Python item assignment `j[k] = v` with a string key: succeeds exactly on
dicts (adding or overwriting the key), `TypeError` otherwise. -/
def Json.setItem : Json → String → Json → Except PyError Json
  | .obj fields, k, v => .ok (.obj (setKeyAssoc fields k v))
  | _, _, _ => .error .typeError

/-- Python `j.append(x)` for a value read out of the store: succeeds exactly on
lists, `AttributeError` otherwise. -/
def Json.appendItem : Json → Json → Except PyError Json
  | .arr xs, x => .ok (.arr (xs ++ [x]))
  | _, _ => .error .attributeError

/-- Python `j.clear()`: lists and dicts support it, other values raise
`AttributeError`. -/
def Json.clearItem : Json → Except PyError Json
  | .arr _ => .ok (.arr [])
  | .obj _ => .ok (.obj [])
  | _ => .error .attributeError

/-- Python truthiness of a JSON value (`if not data_store["chat_messages"]`,
`... if data_store["settings"]["dark_mode"] else ...`). -/
def Json.truthy : Json → Bool
  | .null => false
  | .bool b => b
  | .num n => n != 0
  | .str s => !s.isEmpty
  | .arr xs => !xs.isEmpty
  | .obj fields => !fields.isEmpty

/-- Replace the value of field `k` of a dict in place (the functional image of
mutating the object `j[k]` refers to); non-dicts are returned unchanged, which
only arises after `Json.index` already succeeded. -/
def replaceField : Json → String → Json → Json
  | .obj fields, k, v => .obj (setKeyAssoc fields k v)
  | j, _, _ => j

/-- The default document `load_data` builds when the file is missing or
corrupted (note the source's field name `enable_notifications`). -/
def default_data : Json :=
  .obj [("settings", .obj [("enable_notifications", .bool false),
                           ("dark_mode", .bool false)]),
        ("chat_messages", .arr [])]

/-- `load_data` of `main.py`: returns the parsed document verbatim when the
file exists and parses; falls back to `default_data` when the file is missing
or `json.load` raises `JSONDecodeError`. Total — it never raises. -/
def load_data : DiskFile → Json
  | .missing => default_data
  | .corrupt => default_data
  | .file j => j

/-- The full application state the handlers of `main.py` touch: the in-memory
`data_store`, the persisted file, the text currently in `new_message_field`,
and the page's theme mode. -/
structure AppState where
  data_store : Json
  disk : DiskFile
  message_field : String
  theme_dark : Bool

/-- `save_data` of `main.py`: serializes the whole current `data_store` and
overwrites the file. -/
def save_data (s : AppState) : AppState :=
  { s with disk := DiskFile.file s.data_store }

/-- The store part of `add_message`:
`data_store["chat_messages"].append(message)`. -/
def appendChatStore (d : Json) (m : String) : Except PyError Json :=
  match d.index "chat_messages" with
  | .ok cm =>
      match cm.appendItem (.str m) with
      | .ok cm' => .ok (replaceField d "chat_messages" cm')
      | .error e => .error e
  | .error e => .error e

/-- `add_message` of `main.py`: appends the message to
`data_store["chat_messages"]` and calls `save_data` (the UI list append,
`page.update()` and the scroll are view-only). -/
def add_message (message : String) (s : AppState) : Except PyError AppState :=
  match appendChatStore s.data_store message with
  | .ok d' => .ok (save_data { s with data_store := d' })
  | .error e => .error e

/-- `send_message` of `main.py`: a no-op when `new_message_field.value` is
falsy (the empty string); otherwise `add_message` with the field's text, then
the field is reset to `""`. -/
def send_message (s : AppState) : Except PyError AppState :=
  if s.message_field.isEmpty then .ok s
  else
    match add_message s.message_field s with
    | .ok s' => .ok { s' with message_field := "" }
    | .error e => .error e

/-- `clear_chat` of `main.py`: `data_store["chat_messages"].clear()` then
`save_data` (clearing the UI list is view-only). -/
def clear_chat (s : AppState) : Except PyError AppState :=
  match s.data_store.index "chat_messages" with
  | .ok cm =>
      match cm.clearItem with
      | .ok cm' => .ok (save_data { s with data_store := replaceField s.data_store "chat_messages" cm' })
      | .error e => .error e
  | .error e => .error e

/-- `on_dark_mode_switch_change` of `main.py`: sets the page theme, assigns
`data_store["settings"]["dark_mode"] = is_dark` and calls `save_data` (the
rest of the handler recolors and rebuilds views). -/
def on_dark_mode_switch_change (is_dark : Bool) (s : AppState) : Except PyError AppState :=
  match s.data_store.index "settings" with
  | .ok st =>
      match st.setItem "dark_mode" (.bool is_dark) with
      | .ok st' => .ok (save_data { s with
          data_store := replaceField s.data_store "settings" st',
          theme_dark := is_dark })
      | .error e => .error e
  | .error e => .error e

/-- The text of the i-th dummy message seeded by `main` when the loaded chat
is empty. -/
def dummy_message (i : Nat) : String :=
  "Dummy Message " ++ toString i ++ ": This is a test message to fill up the chat area."

/-- The indices `range(1, 15)` of the seeding loop. -/
def dummy_indices : List Nat := List.range' 1 14

/-- The 14 dummy messages `main` seeds, in order. -/
def dummy_messages : List String := dummy_indices.map dummy_message

/-- The seeding loop of `main`:
`for i in range(1, 15): data_store["chat_messages"].append(...)`. -/
def seed_data (d : Json) : Except PyError Json :=
  dummy_indices.foldlM (fun acc i => appendChatStore acc (dummy_message i)) d

/-- The startup sequence of `main` as far as the data store is concerned:
`data_store = load_data()`; seed 14 dummy messages and `save_data()` when
`data_store["chat_messages"]` is falsy; then read
`data_store["settings"]["dark_mode"]` to set the page theme. Any raised
`KeyError`/`TypeError`/`AttributeError` aborts startup. -/
def startup (disk : DiskFile) : Except PyError AppState :=
  match (load_data disk).index "chat_messages" with
  | .ok cm =>
      match (if cm.truthy then Except.ok (load_data disk, disk)
             else
               match seed_data (load_data disk) with
               | .ok d1 => .ok (d1, DiskFile.file d1)
               | .error e => .error e) with
      | .ok (d1, disk1) =>
          match d1.index "settings" with
          | .ok st =>
              match st.index "dark_mode" with
              | .ok dm => .ok { data_store := d1, disk := disk1,
                                message_field := "", theme_dark := dm.truthy }
              | .error e => .error e
          | .error e => .error e
      | .error e => .error e
  | .error e => .error e

/-! ### Theme resolver (pure palette functions of `main.py`) -/

/-- The hardcoded hex colors of `main.py`, kept under their source names. -/
def COLOR_WHITE : String := "#FFFFFF"
def COLOR_BLACK : String := "#000000"
def COLOR_BLUE_GREY_600 : String := "#546E7A"
def COLOR_BLUE_ACCENT_700 : String := "#2962FF"
def COLOR_BLUE_GREY_900 : String := "#263238"
def COLOR_BLUE_GREY_800 : String := "#37474F"
def COLOR_BLUE_GREY_700 : String := "#455A64"
def COLOR_BLUE_GREY_50 : String := "#ECEFF1"
def COLOR_BLUE_100 : String := "#BBDEFB"
def COLOR_BLUE_700 : String := "#1976D2"
def COLOR_LIGHT_BLUE_200 : String := "#81D4FA"
def COLOR_WHITE70 : String := "#B3FFFFFF"
def COLOR_GREY_300 : String := "#E0E0E0"
def COLOR_GREY_700 : String := "#616161"

/-- Result of `get_app_bar_colors`. -/
structure AppBarColors where
  bgcolor : String
  content_color : String
deriving Repr, DecidableEq

/-- Result of `get_nav_button_colors`. -/
structure NavButtonColors where
  bg : String
  text : String
deriving Repr, DecidableEq

/-- Result of `get_text_field_colors`. -/
structure TextFieldColors where
  bgcolor : String
  text_color : String
  hint_color : String
deriving Repr, DecidableEq

/-- `get_app_bar_colors` of `main.py`. -/
def get_app_bar_colors (is_dark_mode : Bool) : AppBarColors :=
  if is_dark_mode then
    { bgcolor := COLOR_BLUE_GREY_900, content_color := COLOR_WHITE }
  else
    { bgcolor := COLOR_BLUE_ACCENT_700, content_color := COLOR_WHITE }

/-- `get_general_text_color` of `main.py`. -/
def get_general_text_color (is_dark_mode : Bool) : String :=
  if is_dark_mode then COLOR_WHITE else COLOR_BLACK

/-- `get_nav_bar_container_bgcolor` of `main.py`. -/
def get_nav_bar_container_bgcolor (is_dark_mode : Bool) : String :=
  if is_dark_mode then COLOR_BLUE_GREY_800 else COLOR_BLUE_GREY_50

/-- `get_nav_button_colors` of `main.py`. -/
def get_nav_button_colors (is_dark_mode is_selected : Bool) : NavButtonColors :=
  if is_selected then
    if is_dark_mode then { bg := COLOR_BLUE_GREY_700, text := COLOR_LIGHT_BLUE_200 }
    else { bg := COLOR_BLUE_100, text := COLOR_BLUE_700 }
  else
    if is_dark_mode then { bg := COLOR_BLUE_GREY_800, text := COLOR_WHITE70 }
    else { bg := COLOR_WHITE, text := COLOR_BLUE_GREY_600 }

/-- `get_text_field_colors` of `main.py`. -/
def get_text_field_colors (is_dark_mode : Bool) : TextFieldColors :=
  if is_dark_mode then
    { bgcolor := COLOR_GREY_700, text_color := COLOR_WHITE, hint_color := COLOR_WHITE70 }
  else
    { bgcolor := COLOR_GREY_300, text_color := COLOR_BLACK, hint_color := COLOR_BLUE_GREY_600 }

/-! ### Navigation -/

/-- The three content views of the `views` dictionary. -/
inductive View where
  | home : View
  | chat : View
  | settings : View
deriving Repr, DecidableEq

/-- The `views` dictionary `{0: home_view, 1: chat_view, 2: settings_view}`. -/
def views : Nat → Option View
  | 0 => some View.home
  | 1 => some View.chat
  | 2 => some View.settings
  | _ => none

/-- Navigation state: the `current_selected_index` Ref and the content shown in
`page_content_area`. -/
structure NavState where
  current_selected_index : Nat
  content : View
deriving Repr, DecidableEq

/-- `update_content` of `main.py`: stores the index in the Ref and sets
`page_content_area.content = views[index]` (a `KeyError` for an index outside
the dictionary); button recoloring is view-only. -/
def update_content (index : Nat) (_s : NavState) : Except PyError NavState :=
  match views index with
  | some v => .ok { current_selected_index := index, content := v }
  | none => .error .keyError

/-- The navigation state after page construction: `page_content_area` starts
at `views[0]` and `main` ends with `update_content(0)`. -/
def initial_nav_state : Except PyError NavState :=
  update_content 0 { current_selected_index := 0, content := View.home }

/-! ### Well-shaped documents and event sequences -/

/-- The `settings` object of a well-shaped document, with the source's field
name `enable_notifications`. -/
structure Settings where
  enable_notifications : Bool
  dark_mode : Bool
deriving Repr, DecidableEq

/-- A well-shaped `AppData` document. -/
structure AppData where
  settings : Settings
  chat_messages : List String
deriving Repr, DecidableEq

/-- The JSON document a well-shaped `AppData` denotes, with the exact field
names and field order the source writes. -/
def AppData.toJson (a : AppData) : Json :=
  .obj [("settings", .obj [("enable_notifications", .bool a.settings.enable_notifications),
                           ("dark_mode", .bool a.settings.dark_mode)]),
        ("chat_messages", .arr (a.chat_messages.map Json.str))]

/-- The default store as a well-shaped document. -/
def defaultAppData : AppData := ⟨⟨false, false⟩, []⟩

/-- `true` exactly on lists whose elements are all JSON strings. -/
def isStrList : List Json → Bool
  | [] => true
  | .str _ :: rest => isStrList rest
  | _ => false

/-- Modelled from the spec: the §3 schema as the spec words it — an object
with a `settings` object holding boolean fields named `notifications_enabled`
and `dark_mode`, and a `chat_messages` field holding a sequence of strings.
(The source itself performs no schema validation; this definition exists only
to compare the spec's stated field names with the documents the source
produces.) -/
def specSchema : Json → Bool
  | .obj [("settings", .obj [("notifications_enabled", .bool _), ("dark_mode", .bool _)]),
          ("chat_messages", .arr msgs)] => isStrList msgs
  | _ => false

/-- A user event that mutates the store: submitting the chat text field,
clicking "Clear Chat", or flipping the dark-mode switch. -/
inductive Op where
  | send (text : String) : Op
  | clear : Op
  | toggleDark (b : Bool) : Op

/-- Dispatch one user event to its handler (`send` types `text` into
`new_message_field` and submits it). -/
def applyOp (s : AppState) : Op → Except PyError AppState
  | .send t => send_message { s with message_field := t }
  | .clear => clear_chat s
  | .toggleDark b => on_dark_mode_switch_change b s

/-- A whole session: process startup from a given disk state, then a sequence
of user events. -/
def run (disk : DiskFile) (ops : List Op) : Except PyError AppState :=
  match startup disk with
  | .ok s => ops.foldlM applyOp s
  | .error e => .error e

/-- The store after startup seeding from an empty chat. -/
def seeded_default : AppData := ⟨⟨false, false⟩, dummy_messages⟩

/-- The application state reached by starting from a missing or corrupt file:
the default store, seeded with the 14 dummy messages and persisted. -/
def wSeededState : AppState :=
  { data_store := seeded_default.toJson, disk := DiskFile.file seeded_default.toJson,
    message_field := "", theme_dark := false }

/-- The reachability invariant: the in-memory store is a well-shaped document,
and so is anything currently persisted on disk. -/
def GoodState (s : AppState) : Prop :=
  (∃ a : AppData, s.data_store = a.toJson) ∧
  (∀ j, s.disk = DiskFile.file j → ∃ a : AppData, j = a.toJson)

/-- A disk state the application can start from without escaping well-shaped
documents: absent, corrupt, or holding a well-shaped document. -/
def goodDisk : DiskFile → Prop
  | .missing => True
  | .corrupt => True
  | .file j => ∃ a : AppData, j = a.toJson

/-- The session of the spec's `send("hello")` round-trip property: start the
process, type "hello" into the message field and submit it. -/
def c3_send_hello (disk : DiskFile) : Except PyError AppState :=
  match startup disk with
  | .ok s => send_message { s with message_field := "hello" }
  | .error e => .error e

/-- ... then reload the persisted file and read its `chat_messages` field. -/
def c3_reloaded_chat (disk : DiskFile) : Except PyError Json :=
  match c3_send_hello disk with
  | .ok s => (load_data s.disk).index "chat_messages"
  | .error e => .error e

/-- A concrete state used to instantiate theorems with hypotheses: default
store already persisted, empty message field, light theme. -/
def wDefaultState : AppState :=
  { data_store := default_data, disk := DiskFile.file default_data,
    message_field := "", theme_dark := false }

/-- A concrete state whose chat already holds two messages. -/
def wTwoMsgState : AppState :=
  { data_store := AppData.toJson ⟨⟨false, false⟩, ["a", "b"]⟩,
    disk := DiskFile.file (AppData.toJson ⟨⟨false, false⟩, ["a", "b"]⟩),
    message_field := "", theme_dark := false }

/-- A well-shaped one-message document used as a concrete starting file. -/
def wHiDoc : Json := AppData.toJson ⟨⟨false, false⟩, ["hi"]⟩

/-- The state reached from `wHiDoc` after startup and sending "yo". -/
def wHiYoState : AppState :=
  { data_store := AppData.toJson ⟨⟨false, false⟩, ["hi", "yo"]⟩,
    disk := DiskFile.file (AppData.toJson ⟨⟨false, false⟩, ["hi", "yo"]⟩),
    message_field := "", theme_dark := false }

/-! ### Helper lemmas -/

theorem lookupField_setKeyAssoc_self (fs : List (String × Json)) (k : String) (v : Json) :
    lookupField (setKeyAssoc fs k v) k = some v := by
  induction fs with
  | nil => simp [setKeyAssoc, lookupField]
  | cons p rest ih =>
      by_cases h : p.1 = k
      · simp [setKeyAssoc, lookupField, h]
      · simpa [setKeyAssoc, lookupField, h] using ih

theorem lookupField_setKeyAssoc_other (fs : List (String × Json)) (k k' : String) (v : Json)
    (hne : k' ≠ k) : lookupField (setKeyAssoc fs k v) k' = lookupField fs k' := by
  induction fs with
  | nil => simp [setKeyAssoc, lookupField, Ne.symm hne]
  | cons p rest ih =>
      by_cases h : p.1 = k
      · subst h
        simp [setKeyAssoc, lookupField, Ne.symm hne]
      · by_cases h2 : p.1 = k'
        · simp [setKeyAssoc, lookupField, h, h2, hne]
        · simp [setKeyAssoc, lookupField, h, h2, ih]

theorem index_replaceField_self {d : Json} {k : String} {w : Json} (v : Json)
    (h : d.index k = .ok w) : (replaceField d k v).index k = .ok v := by
  cases d <;> simp [Json.index] at h
  simp [replaceField, Json.index, lookupField_setKeyAssoc_self]

theorem index_replaceField_other (d : Json) {k k' : String} (v : Json) (hne : k' ≠ k) :
    (replaceField d k v).index k' = d.index k' := by
  cases d <;> simp [replaceField, Json.index]
  rw [lookupField_setKeyAssoc_other _ _ _ _ hne]

theorem appendChatStore_eq_ok {d : Json} {xs : List Json} (m : String)
    (h : d.index "chat_messages" = .ok (.arr xs)) :
    appendChatStore d m = .ok (replaceField d "chat_messages" (.arr (xs ++ [.str m]))) := by
  simp [appendChatStore, h, Json.appendItem]

/-- Folding appends over any document whose `chat_messages` field is a JSON
list succeeds and extends that list, leaving every other field unchanged. -/
theorem foldl_append_ok (L : List Nat) :
    ∀ (d : Json) (xs : List Json), d.index "chat_messages" = .ok (.arr xs) →
    ∃ d', L.foldlM (fun acc i => appendChatStore acc (dummy_message i)) d = .ok d' ∧
      d'.index "chat_messages" = .ok (.arr (xs ++ L.map (fun i => Json.str (dummy_message i)))) ∧
      ∀ k, k ≠ "chat_messages" → d'.index k = d.index k := by
  induction L with
  | nil => intro d xs h; exact ⟨d, rfl, by simpa using h, fun _ _ => rfl⟩
  | cons i L ih =>
      intro d xs h
      have happ := appendChatStore_eq_ok (dummy_message i) h
      set d1 := replaceField d "chat_messages" (.arr (xs ++ [.str (dummy_message i)])) with hd1
      have h1 : d1.index "chat_messages" = .ok (.arr (xs ++ [.str (dummy_message i)])) :=
        index_replaceField_self _ h
      obtain ⟨d', hfold, hchat, hothers⟩ := ih d1 _ h1
      refine ⟨d', ?_, ?_, ?_⟩
      · simpa [List.foldlM_cons, happ] using hfold
      · simpa using hchat
      · intro k hk
        rw [hothers k hk, hd1, index_replaceField_other _ _ hk]

theorem index_toJson_chat (a : AppData) :
    (a.toJson).index "chat_messages" = .ok (.arr (a.chat_messages.map Json.str)) := rfl

theorem index_toJson_settings (a : AppData) :
    (a.toJson).index "settings" =
      .ok (.obj [("enable_notifications", .bool a.settings.enable_notifications),
                 ("dark_mode", .bool a.settings.dark_mode)]) := rfl

theorem replaceChat_toJson (a : AppData) (l : List String) :
    replaceField a.toJson "chat_messages" (.arr (l.map Json.str)) =
      (AppData.mk a.settings l).toJson := rfl

theorem appendChatStore_toJson (a : AppData) (m : String) :
    appendChatStore a.toJson m = .ok (AppData.mk a.settings (a.chat_messages ++ [m])).toJson := by
  rw [appendChatStore_eq_ok m (index_toJson_chat a)]
  have hmap : a.chat_messages.map Json.str ++ [Json.str m] = (a.chat_messages ++ [m]).map Json.str := by
    simp
  rw [hmap, replaceChat_toJson]

theorem foldl_append_toJson (L : List Nat) : ∀ a : AppData,
    L.foldlM (fun acc i => appendChatStore acc (dummy_message i)) a.toJson =
      .ok (AppData.mk a.settings (a.chat_messages ++ L.map dummy_message)).toJson := by
  induction L with
  | nil => intro a; simp [pure, Except.pure]
  | cons i L ih =>
      intro a
      rw [List.foldlM_cons, appendChatStore_toJson]
      have := ih (AppData.mk a.settings (a.chat_messages ++ [dummy_message i]))
      simp only [List.map_cons] at *
      simpa [List.append_assoc] using this

theorem seed_data_toJson (a : AppData) :
    seed_data a.toJson = .ok (AppData.mk a.settings (a.chat_messages ++ dummy_messages)).toJson := by
  rw [seed_data, foldl_append_toJson]
  rfl

theorem add_message_toJson (m : String) (a : AppData) (s : AppState) (h : s.data_store = a.toJson) :
    add_message m s =
      .ok { s with data_store := (AppData.mk a.settings (a.chat_messages ++ [m])).toJson,
                   disk := .file (AppData.mk a.settings (a.chat_messages ++ [m])).toJson } := by
  simp [add_message, h, appendChatStore_toJson, save_data]

theorem clear_chat_toJson (a : AppData) (s : AppState) (h : s.data_store = a.toJson) :
    clear_chat s =
      .ok { s with data_store := (AppData.mk a.settings []).toJson,
                   disk := .file (AppData.mk a.settings []).toJson } := by
  have hrep : replaceField a.toJson "chat_messages" (.arr []) = (AppData.mk a.settings []).toJson :=
    replaceChat_toJson a []
  simp [clear_chat, h, index_toJson_chat, Json.clearItem, save_data, hrep]

theorem toggle_toJson (b : Bool) (a : AppData) (s : AppState) (h : s.data_store = a.toJson) :
    on_dark_mode_switch_change b s =
      .ok { s with
            data_store := (AppData.mk ⟨a.settings.enable_notifications, b⟩ a.chat_messages).toJson,
            disk := .file (AppData.mk ⟨a.settings.enable_notifications, b⟩ a.chat_messages).toJson,
            theme_dark := b } := by
  have hset : Json.setItem
      (.obj [("enable_notifications", .bool a.settings.enable_notifications),
             ("dark_mode", .bool a.settings.dark_mode)]) "dark_mode" (.bool b) =
      .ok (.obj [("enable_notifications", .bool a.settings.enable_notifications),
                 ("dark_mode", .bool b)]) := rfl
  have hrep : replaceField a.toJson "settings"
      (.obj [("enable_notifications", .bool a.settings.enable_notifications),
             ("dark_mode", .bool b)]) =
      (AppData.mk ⟨a.settings.enable_notifications, b⟩ a.chat_messages).toJson := rfl
  simp [on_dark_mode_switch_change, h, index_toJson_settings, hset, hrep, save_data]

theorem applyOp_good (op : Op) (s s' : AppState) (hs : GoodState s)
    (h : applyOp s op = .ok s') : GoodState s' := by
  obtain ⟨⟨a, ha⟩, hdisk⟩ := hs
  cases op with
  | send t =>
      by_cases ht : t.isEmpty
      · simp [applyOp, send_message, ht] at h
        subst h
        exact ⟨⟨a, ha⟩, hdisk⟩
      · have hadd := add_message_toJson t a { s with message_field := t } ha
        simp [applyOp, send_message, ht, hadd] at h
        subst h
        refine ⟨⟨_, rfl⟩, ?_⟩
        intro j hj
        injection hj with hj
        exact ⟨_, hj.symm⟩
  | clear =>
      have hc := clear_chat_toJson a s ha
      simp [applyOp, hc] at h
      subst h
      refine ⟨⟨_, rfl⟩, ?_⟩
      intro j hj
      injection hj with hj
      exact ⟨_, hj.symm⟩
  | toggleDark b =>
      have ht := toggle_toJson b a s ha
      simp [applyOp, ht] at h
      subst h
      refine ⟨⟨_, rfl⟩, ?_⟩
      intro j hj
      injection hj with hj
      exact ⟨_, hj.symm⟩

theorem foldlM_good (ops : List Op) : ∀ s s', GoodState s →
    ops.foldlM applyOp s = .ok s' → GoodState s' := by
  induction ops with
  | nil =>
      intro s s' hs h
      simp only [List.foldlM_nil, pure, Except.pure, Except.ok.injEq] at h
      exact h ▸ hs
  | cons op ops ih =>
      intro s s' hs h
      rw [List.foldlM_cons] at h
      cases hop : applyOp s op with
      | ok s1 =>
          rw [hop] at h
          simp only [bind, Except.bind] at h
          exact ih s1 s' (applyOp_good op s s1 hs hop) h
      | error e => rw [hop] at h; simp [bind, Except.bind] at h

/-- Startup from a well-shaped file with an empty chat: the 14 dummy messages
are seeded and persisted. -/
theorem startup_file_nil (st : Settings) :
    startup (DiskFile.file (AppData.mk st []).toJson) =
      .ok { data_store := (AppData.mk st dummy_messages).toJson,
            disk := .file (AppData.mk st dummy_messages).toJson,
            message_field := "", theme_dark := st.dark_mode } := by
  have hseed := seed_data_toJson (AppData.mk st [])
  simp only [List.nil_append] at hseed
  simp only [AppData.toJson, List.map_nil] at hseed ⊢
  simp [startup, load_data, Json.truthy, hseed, Json.index, lookupField]

/-- Startup from a well-shaped file with a nonempty chat: no seeding, nothing
is written. -/
theorem startup_file_cons (st : Settings) (m : String) (rest : List String) :
    startup (DiskFile.file (AppData.mk st (m :: rest)).toJson) =
      .ok { data_store := (AppData.mk st (m :: rest)).toJson,
            disk := .file (AppData.mk st (m :: rest)).toJson,
            message_field := "", theme_dark := st.dark_mode } := rfl

/-- Startup from a missing file: the defaults are seeded and persisted. -/
theorem startup_missing :
    startup DiskFile.missing =
      .ok { data_store := seeded_default.toJson, disk := .file seeded_default.toJson,
            message_field := "", theme_dark := false } := rfl

/-- Startup from a corrupted file behaves exactly like a missing one. -/
theorem startup_corrupt :
    startup DiskFile.corrupt =
      .ok { data_store := seeded_default.toJson, disk := .file seeded_default.toJson,
            message_field := "", theme_dark := false } := rfl

theorem startup_good (disk : DiskFile) (s : AppState) (hd : goodDisk disk)
    (h : startup disk = .ok s) : GoodState s := by
  cases disk with
  | missing =>
      rw [startup_missing] at h
      simp only [Except.ok.injEq] at h
      subst h
      exact ⟨⟨seeded_default, rfl⟩, fun j hj => by injection hj with hj; exact ⟨_, hj.symm⟩⟩
  | corrupt =>
      rw [startup_corrupt] at h
      simp only [Except.ok.injEq] at h
      subst h
      exact ⟨⟨seeded_default, rfl⟩, fun j hj => by injection hj with hj; exact ⟨_, hj.symm⟩⟩
  | file j =>
      obtain ⟨a, rfl⟩ := hd
      obtain ⟨st, chat⟩ := a
      cases chat with
      | nil =>
          rw [startup_file_nil] at h
          simp only [Except.ok.injEq] at h
          subst h
          exact ⟨⟨_, rfl⟩, fun j hj => by injection hj with hj; exact ⟨_, hj.symm⟩⟩
      | cons m rest =>
          rw [startup_file_cons] at h
          simp only [Except.ok.injEq] at h
          subst h
          exact ⟨⟨_, rfl⟩, fun j hj => by injection hj with hj; exact ⟨_, hj.symm⟩⟩

theorem add_message_ok_disk {m : String} {s s' : AppState}
    (h : add_message m s = .ok s') : s'.disk = DiskFile.file s'.data_store := by
  unfold add_message at h
  split at h
  · simp only [Except.ok.injEq] at h; subst h; rfl
  · simp at h

theorem toggle_ok_disk {b : Bool} {s s' : AppState}
    (h : on_dark_mode_switch_change b s = .ok s') : s'.disk = DiskFile.file s'.data_store := by
  unfold on_dark_mode_switch_change at h
  split at h
  · split at h
    · simp only [Except.ok.injEq] at h; subst h; rfl
    · simp at h
  · simp at h

/-- Inversion for `clear_chat`: it writes through, and the cleared field is
`[]` when it was a JSON list (it is `{}` when it was a JSON object, since
Python's `dict.clear` also exists). -/
theorem clear_chat_inv {s s' : AppState} (h : clear_chat s = .ok s') :
    s'.disk = DiskFile.file s'.data_store ∧
    (s'.data_store.index "chat_messages" = .ok (.arr []) ∨
     s'.data_store.index "chat_messages" = .ok (.obj [])) := by
  unfold clear_chat at h
  cases hcm : s.data_store.index "chat_messages" with
  | error e => rw [hcm] at h; simp at h
  | ok cm =>
      rw [hcm] at h
      cases cm with
      | arr xs =>
          simp only [Json.clearItem, Except.ok.injEq] at h
          subst h
          exact ⟨rfl, Or.inl (index_replaceField_self _ hcm)⟩
      | obj fs =>
          simp only [Json.clearItem, Except.ok.injEq] at h
          subst h
          exact ⟨rfl, Or.inr (index_replaceField_self _ hcm)⟩
      | null => simp [Json.clearItem] at h
      | bool b => simp [Json.clearItem] at h
      | num n => simp [Json.clearItem] at h
      | str t => simp [Json.clearItem] at h

/-- Seeding fails with `AttributeError` when the loaded `chat_messages` value
is not a JSON list (Python: `.append` on a non-list). -/
theorem seed_data_err {d cm : Json} (h : d.index "chat_messages" = .ok cm)
    (hcm : ∀ xs, cm ≠ .arr xs) : seed_data d = .error PyError.attributeError := by
  have h1 : appendChatStore d (dummy_message 1) = .error PyError.attributeError := by
    cases cm with
    | arr xs => exact absurd rfl (hcm xs)
    | null => simp [appendChatStore, h, Json.appendItem]
    | bool b => simp [appendChatStore, h, Json.appendItem]
    | num n => simp [appendChatStore, h, Json.appendItem]
    | str t => simp [appendChatStore, h, Json.appendItem]
    | obj fs => simp [appendChatStore, h, Json.appendItem]
  have hidx : dummy_indices = 1 :: List.range' 2 13 := rfl
  rw [seed_data, hidx, List.foldlM_cons]
  simp [h1, bind, Except.bind]

/-- Inversion for `startup`: on success the message field is empty and either
the loaded chat was truthy and nothing was written, or it was falsy and the
seeded store was persisted. -/
theorem startup_inv {disk : DiskFile} {s : AppState} (h : startup disk = .ok s) :
    s.message_field = "" ∧
    ∃ cm, (load_data disk).index "chat_messages" = .ok cm ∧
      ((cm.truthy = true ∧ s.data_store = load_data disk ∧ s.disk = disk) ∨
       (cm.truthy = false ∧ seed_data (load_data disk) = .ok s.data_store ∧
        s.disk = DiskFile.file s.data_store)) := by
  unfold startup at h
  cases hcm : (load_data disk).index "chat_messages" with
  | error e => rw [hcm] at h; simp at h
  | ok cm =>
      rw [hcm] at h
      simp only [] at h
      cases htr : cm.truthy with
      | true =>
          rw [htr] at h
          simp only [if_pos] at h
          cases hst : (load_data disk).index "settings" with
          | error e => rw [hst] at h; simp at h
          | ok st =>
              rw [hst] at h
              simp only [] at h
              cases hdm : st.index "dark_mode" with
              | error e => rw [hdm] at h; simp at h
              | ok dm =>
                  rw [hdm] at h
                  simp only [Except.ok.injEq] at h
                  subst h
                  exact ⟨rfl, cm, rfl, Or.inl ⟨htr, rfl, rfl⟩⟩
      | false =>
          rw [htr] at h
          simp only [Bool.false_eq_true, if_false] at h
          cases hse : seed_data (load_data disk) with
          | error e => rw [hse] at h; simp at h
          | ok d1 =>
              rw [hse] at h
              simp only [] at h
              cases hst : d1.index "settings" with
              | error e => rw [hst] at h; simp at h
              | ok st =>
                  rw [hst] at h
                  simp only [] at h
                  cases hdm : st.index "dark_mode" with
                  | error e => rw [hdm] at h; simp at h
                  | ok dm =>
                      rw [hdm] at h
                      simp only [Except.ok.injEq] at h
                      subst h
                      exact ⟨rfl, cm, rfl, Or.inr ⟨htr, rfl, rfl⟩⟩

/-- Whenever the loaded file's `chat_messages` is the empty JSON list and
startup succeeds, the in-memory chat holds exactly the 14 dummy messages and
the store was persisted. -/
theorem startup_seeds {disk : DiskFile} {s : AppState}
    (hempty : (load_data disk).index "chat_messages" = .ok (.arr []))
    (hok : startup disk = .ok s) :
    s.data_store.index "chat_messages" = .ok (.arr (dummy_messages.map Json.str)) ∧
    s.disk = DiskFile.file s.data_store ∧ s.message_field = "" := by
  obtain ⟨hmf, cm, hcm, hcase⟩ := startup_inv hok
  have hcmeq : cm = Json.arr [] := by
    have := hcm.symm.trans hempty
    injection this
  subst hcmeq
  rcases hcase with ⟨htr, -, -⟩ | ⟨-, hse, hdisk⟩
  · simp [Json.truthy] at htr
  · obtain ⟨d', hfold, hchat, -⟩ := foldl_append_ok dummy_indices (load_data disk) [] hempty
    unfold seed_data at hse
    have hd' : d' = s.data_store := by
      have := hfold.symm.trans hse
      injection this
    subst hd'
    have hlists : List.map (fun i => Json.str (dummy_message i)) dummy_indices =
        dummy_messages.map Json.str := rfl
    rw [List.nil_append, hlists] at hchat
    exact ⟨hchat, hdisk, hmf⟩

/-- No successful startup leaves the chat as the empty JSON list: a truthy
chat value is not `[]`, and a falsy one either gets the 14 dummy messages or
aborts startup with an `AttributeError`. -/
theorem startup_chat_nonempty {disk : DiskFile} {s : AppState} (h : startup disk = .ok s) :
    s.data_store.index "chat_messages" ≠ .ok (.arr []) := by
  obtain ⟨-, cm, hcm, hcase⟩ := startup_inv h
  rcases hcase with ⟨htr, hds, -⟩ | ⟨htr, hse, -⟩
  · rw [hds, hcm]
    intro hcontra
    have hcmeq : cm = Json.arr [] := by injection hcontra
    subst hcmeq
    simp [Json.truthy] at htr
  · cases cm with
    | arr xs =>
        have hxs : xs = [] := by
          simpa [Json.truthy, List.isEmpty_iff] using htr
        subst hxs
        obtain ⟨d', hfold, hchat, -⟩ := foldl_append_ok dummy_indices (load_data disk) [] hcm
        unfold seed_data at hse
        have hd' : d' = s.data_store := by
          have := hfold.symm.trans hse
          injection this
        subst hd'
        rw [hchat]
        intro hcontra
        have harr : ([] ++ List.map (fun i => Json.str (dummy_message i)) dummy_indices :
            List Json) = [] := by
          injection hcontra with hcontra
          injection hcontra
        have hlen : (14 : Nat) = 0 := congrArg List.length harr
        exact absurd hlen (by decide)
    | null =>
        rw [seed_data_err hcm (fun xs hx => Json.noConfusion hx)] at hse
        exact Except.noConfusion hse
    | bool b =>
        rw [seed_data_err hcm (fun xs hx => Json.noConfusion hx)] at hse
        exact Except.noConfusion hse
    | num n =>
        rw [seed_data_err hcm (fun xs hx => Json.noConfusion hx)] at hse
        exact Except.noConfusion hse
    | str t =>
        rw [seed_data_err hcm (fun xs hx => Json.noConfusion hx)] at hse
        exact Except.noConfusion hse
    | obj fs =>
        rw [seed_data_err hcm (fun xs hx => Json.noConfusion hx)] at hse
        exact Except.noConfusion hse

/-! ### Claims -/

/-- C1: For every call of `load()`: if the JSON file at the fixed path is
missing, or exists but fails to parse as JSON, `load()` returns the default
AppData (notification flag false, dark-mode flag false, empty `chat_messages`
list) and does not raise (`load_data` is total by construction, so no
exception escapes). -/
theorem C1_load_defaults (disk : DiskFile)
    (h : disk = DiskFile.missing ∨ disk = DiskFile.corrupt) :
    load_data disk = default_data ∧
    (load_data disk).index "chat_messages" = .ok (.arr []) ∧
    (load_data disk).index "settings" =
      .ok (.obj [("enable_notifications", .bool false), ("dark_mode", .bool false)]) := by
  rcases h with rfl | rfl <;> exact ⟨rfl, rfl, rfl⟩

/-- Witness for C1 at the concrete input `DiskFile.missing`. -/
theorem C1_load_defaults_witness :
    (DiskFile.missing = DiskFile.missing ∨ DiskFile.missing = DiskFile.corrupt) ∧
    (load_data DiskFile.missing = default_data ∧
     (load_data DiskFile.missing).index "chat_messages" = .ok (.arr []) ∧
     (load_data DiskFile.missing).index "settings" =
       .ok (.obj [("enable_notifications", .bool false), ("dark_mode", .bool false)])) :=
  ⟨Or.inl rfl, C1_load_defaults DiskFile.missing (Or.inl rfl)⟩

/-- C2: Disk write-through invariant: after every mutating operation completes
(appending a chat message, clearing the chat, toggling the dark-mode flag),
the persisted file holds exactly the current in-memory `data_store` — each of
the three handlers calls `save_data` before returning. -/
theorem C2_write_through (m : String) (b : Bool) (s s' : AppState)
    (h : add_message m s = .ok s' ∨ clear_chat s = .ok s' ∨
         on_dark_mode_switch_change b s = .ok s') :
    s'.disk = DiskFile.file s'.data_store := by
  rcases h with h | h | h
  · exact add_message_ok_disk h
  · exact (clear_chat_inv h).1
  · exact toggle_ok_disk h

/-- Witness for C2: clearing the chat of the default store. -/
theorem C2_write_through_witness :
    (add_message "x" wDefaultState = .ok wDefaultState ∨
     clear_chat wDefaultState = .ok wDefaultState ∨
     on_dark_mode_switch_change false wDefaultState = .ok wDefaultState) ∧
    wDefaultState.disk = DiskFile.file wDefaultState.data_store :=
  ⟨Or.inr (Or.inl rfl),
   C2_write_through "x" false wDefaultState wDefaultState (Or.inr (Or.inl rfl))⟩

/-- C3 counterexample: starting from a freshly created default store (missing
file), `send("hello")` followed by a reload of the persisted file does NOT
yield exactly `["hello"]` — startup first seeds 14 dummy messages, so the
reloaded chat has 15 entries. -/
theorem C3_counterexample :
    c3_reloaded_chat DiskFile.missing ≠ .ok (Json.arr [Json.str "hello"]) := by
  intro hcontra
  have h15 : c3_reloaded_chat DiskFile.missing =
      .ok (Json.arr (dummy_messages.map Json.str ++ [Json.str "hello"])) := rfl
  rw [hcontra] at h15
  have hlen := congrArg (fun x => match x with
    | Except.ok (Json.arr xs) => xs.length
    | _ => 0) h15
  have hne : (1 : Nat) = 15 := hlen
  exact absurd hne (by decide)

/-- C3 (amended): starting from a freshly created default store (missing or
corrupt file), startup seeds the 14 dummy messages, so `send("hello")`
followed by a reload of the persisted file yields the 14 dummy messages
followed by "hello" (15 entries ending in "hello"), not `["hello"]`. -/
theorem C3_amended_roundtrip :
    c3_reloaded_chat DiskFile.missing =
      .ok (Json.arr (dummy_messages.map Json.str ++ [Json.str "hello"])) ∧
    c3_reloaded_chat DiskFile.corrupt =
      .ok (Json.arr (dummy_messages.map Json.str ++ [Json.str "hello"])) ∧
    dummy_messages.length = 14 :=
  ⟨rfl, rfl, rfl⟩

/-- C4: For every state of the chat, `send("")` with empty text is a no-op:
the whole application state — chat list, persisted file, theme — is returned
unchanged, so nothing is appended or persisted. -/
theorem C4_send_empty_noop (s : AppState) (h : s.message_field = "") :
    send_message s = .ok s := by
  have hempty : s.message_field.isEmpty = true := by rw [h]; rfl
  simp [send_message, hempty]

/-- Witness for C4 at the concrete default state. -/
theorem C4_send_empty_noop_witness :
    wDefaultState.message_field = "" ∧ send_message wDefaultState = .ok wDefaultState :=
  ⟨rfl, C4_send_empty_noop wDefaultState rfl⟩

/-- C5: For every state whose chat is a JSON list (in particular after any
number of sends), `clear()` succeeds, leaves `chat_messages` empty in memory,
and persists the document whose `chat_messages` equals `[]`. -/
theorem C5_clear_chat_empties (s : AppState) (xs : List Json)
    (h : s.data_store.index "chat_messages" = .ok (.arr xs)) :
    ∃ s', clear_chat s = .ok s' ∧
      s'.data_store.index "chat_messages" = .ok (.arr []) ∧
      s'.disk = DiskFile.file s'.data_store := by
  refine ⟨save_data { s with
    data_store := replaceField s.data_store "chat_messages" (.arr []) }, ?_, ?_, rfl⟩
  · simp [clear_chat, h, Json.clearItem, save_data]
  · exact index_replaceField_self _ h

/-- Witness for C5 at a concrete state holding two sent messages. -/
theorem C5_clear_chat_empties_witness :
    wTwoMsgState.data_store.index "chat_messages" =
      .ok (.arr [Json.str "a", Json.str "b"]) ∧
    (∃ s', clear_chat wTwoMsgState = .ok s' ∧
      s'.data_store.index "chat_messages" = .ok (.arr []) ∧
      s'.disk = DiskFile.file s'.data_store) :=
  ⟨rfl, C5_clear_chat_empties wTwoMsgState [Json.str "a", Json.str "b"] rfl⟩

/-- C6: The theme resolver is pure and deterministic by construction (each
palette function is a plain Lean function of the dark-mode flag, plus the
selection flag for navigation buttons), and toggling the dark-mode flag twice
(`!!b`) yields exactly the original palette for every UI region. -/
theorem C6_palette_double_toggle (b sel : Bool) :
    get_app_bar_colors (!!b) = get_app_bar_colors b ∧
    get_general_text_color (!!b) = get_general_text_color b ∧
    get_nav_bar_container_bgcolor (!!b) = get_nav_bar_container_bgcolor b ∧
    get_nav_button_colors (!!b) sel = get_nav_button_colors b sel ∧
    get_text_field_colors (!!b) = get_text_field_colors b := by
  cases b <;> exact ⟨rfl, rfl, rfl, rfl, rfl⟩

/-- C7: Navigation is a three-state machine {Home=0, Chat=1, Settings=2} with
no transition restrictions — from any current state each button reaches its
own view — the initial state is Home, and the button sequence
Home→Chat→Settings→Home ends at index 0 showing the Home view. -/
theorem C7_navigation (s : NavState) :
    update_content 0 s = .ok { current_selected_index := 0, content := View.home } ∧
    update_content 1 s = .ok { current_selected_index := 1, content := View.chat } ∧
    update_content 2 s = .ok { current_selected_index := 2, content := View.settings } ∧
    Except.bind (Except.bind (Except.bind initial_nav_state (update_content 1))
        (update_content 2)) (update_content 0) =
      .ok { current_selected_index := 0, content := View.home } :=
  ⟨rfl, rfl, rfl, rfl⟩

/-- C8 counterexample: the default document produced by `load()` does not have
a `settings.notifications_enabled` field — the source names the field
`enable_notifications` — so it fails the spec's §3 schema as worded. -/
theorem C8_counterexample : specSchema (load_data DiskFile.missing) = false := rfl

/-- C8 (amended): with the field name corrected to `enable_notifications`, the
schema claim holds: in every session starting from a missing file, a corrupt
file, or a file holding a well-shaped document, the in-memory store and every
persisted document are of the shape
`{settings: {enable_notifications: bool, dark_mode: bool}, chat_messages: [string, ...]}`
(that is, they are `AppData.toJson` of some `AppData`). -/
theorem C8_amended_schema (disk : DiskFile) (ops : List Op) (s : AppState)
    (hd : goodDisk disk) (h : run disk ops = .ok s) :
    (∃ a : AppData, s.data_store = a.toJson) ∧
    (∀ j, s.disk = DiskFile.file j → ∃ a : AppData, j = a.toJson) := by
  unfold run at h
  cases hst : startup disk with
  | ok s0 =>
      rw [hst] at h
      simp only [] at h
      exact foldlM_good ops s0 s (startup_good disk s0 hd hst) h
  | error e => rw [hst] at h; simp at h

/-- Witness for C8: start from a one-message well-shaped file and send "yo". -/
theorem C8_amended_schema_witness :
    goodDisk (DiskFile.file wHiDoc) ∧
    run (DiskFile.file wHiDoc) [Op.send "yo"] = .ok wHiYoState ∧
    ((∃ a : AppData, wHiYoState.data_store = a.toJson) ∧
     (∀ j, wHiYoState.disk = DiskFile.file j → ∃ a : AppData, j = a.toJson)) :=
  ⟨⟨⟨⟨false, false⟩, ["hi"]⟩, rfl⟩, rfl,
   C8_amended_schema (DiskFile.file wHiDoc) [Op.send "yo"] wHiYoState
     ⟨⟨⟨false, false⟩, ["hi"]⟩, rfl⟩ rfl⟩

/-- C9: dummy seeding runs on every launch where the loaded `chat_messages`
is empty, not only the first run: exactly 14 dummy messages are appended and
immediately persisted; clearing the chat and restarting re-populates and
re-persists the 14 dummy messages; and no successful startup leaves
`chat_messages` as the empty list. -/
theorem C9_dummy_seeding (disk : DiskFile) (s : AppState)
    (hempty : (load_data disk).index "chat_messages" = .ok (.arr []))
    (hok : startup disk = .ok s) :
    s.data_store.index "chat_messages" = .ok (.arr (dummy_messages.map Json.str)) ∧
    dummy_messages.length = 14 ∧
    s.disk = DiskFile.file s.data_store ∧
    (∀ s0 s1 s2, clear_chat s0 = .ok s1 → startup s1.disk = .ok s2 →
        s2.data_store.index "chat_messages" = .ok (.arr (dummy_messages.map Json.str))) ∧
    (∀ disk' s', startup disk' = .ok s' →
        s'.data_store.index "chat_messages" ≠ .ok (.arr [])) := by
  obtain ⟨hchat, hdisk, -⟩ := startup_seeds hempty hok
  refine ⟨hchat, rfl, hdisk, ?_, fun disk' s' h => startup_chat_nonempty h⟩
  intro s0 s1 s2 hclear hst
  obtain ⟨hd1, hcm1⟩ := clear_chat_inv hclear
  have hload : load_data s1.disk = s1.data_store := by rw [hd1]; rfl
  rcases hcm1 with hcm1 | hcm1
  · have hempty1 : (load_data s1.disk).index "chat_messages" = .ok (.arr []) := by
      rw [hload]; exact hcm1
    exact (startup_seeds hempty1 hst).1
  · exfalso
    obtain ⟨-, cm, hcm, hcase⟩ := startup_inv hst
    rw [hload] at hcm
    have hcmeq : cm = Json.obj [] := by
      have hoo := hcm.symm.trans hcm1
      injection hoo
    subst hcmeq
    rcases hcase with ⟨htr, -, -⟩ | ⟨-, hse, -⟩
    · simp [Json.truthy] at htr
    · rw [hload] at hse
      rw [seed_data_err hcm1 (fun xs hx => Json.noConfusion hx)] at hse
      exact Except.noConfusion hse

/-- Witness for C9 at the concrete input `DiskFile.missing`. -/
theorem C9_dummy_seeding_witness :
    (load_data DiskFile.missing).index "chat_messages" = .ok (.arr []) ∧
    startup DiskFile.missing = .ok wSeededState ∧
    (wSeededState.data_store.index "chat_messages" =
        .ok (.arr (dummy_messages.map Json.str)) ∧
     dummy_messages.length = 14 ∧
     wSeededState.disk = DiskFile.file wSeededState.data_store ∧
     (∀ s0 s1 s2, clear_chat s0 = .ok s1 → startup s1.disk = .ok s2 →
         s2.data_store.index "chat_messages" = .ok (.arr (dummy_messages.map Json.str))) ∧
     (∀ disk' s', startup disk' = .ok s' →
         s'.data_store.index "chat_messages" ≠ .ok (.arr []))) :=
  ⟨rfl, rfl, C9_dummy_seeding DiskFile.missing wSeededState rfl rfl⟩

/-- C10: `load` performs no schema validation: a parsing file is returned
verbatim whatever its shape; only missing/corrupt files fall back to the
default; and well-formed JSON of the wrong shape makes the startup field
accesses raise (`KeyError` for `{}`, `TypeError` for `[]`) instead of
recovering to defaults. -/
theorem C10_no_schema_validation (j : Json) :
    load_data (DiskFile.file j) = j ∧
    load_data DiskFile.missing = default_data ∧
    load_data DiskFile.corrupt = default_data ∧
    startup (DiskFile.file (Json.obj [])) = .error PyError.keyError ∧
    startup (DiskFile.file (Json.arr [])) = .error PyError.typeError :=
  ⟨rfl, rfl, rfl, rfl, rfl⟩
